import Mathlib

/-!
Verification of `src/experiment.js` (browser-run perceptual-rating survey):
a shallow embedding of the filename/metadata codec, the randomization and
timeline builder, the trial gate, the persistence pipeline and the identity
resolution, together with theorems settling the specification claims.
-/

namespace HeightStudy

/- ========= BASIC OPTIONS (`src/experiment.js` lines 9-30) ========= -/

/-- `const IMAGE_EXT = '.png'` -/
def IMAGE_EXT : String := ".png"

/-- `const CLOUDRESEARCH_COMPLETION_URL = ""` (a configuration point; the
repository ships the empty string, i.e. no redirect). -/
def CLOUDRESEARCH_COMPLETION_URL : String := ""

/- ========= FILENAME GENERATION (`buildFiles`, lines 47-68) ========= -/

/-- `const NUM_FACES_PER_SEX = 6` -/
def NUM_FACES_PER_SEX : Nat := 6

/-- `const HEIGHT_CODES = ['1','2','3']` (1=Tall, 2=Average, 3=Short) -/
def HEIGHT_CODES : List String := ["1", "2", "3"]

/-- `const ATTR_CODES = ['', '.2', '.3']` (''=Attractive, .2=Less, .3=Very
unattractive) -/
def ATTR_CODES : List String := ["", ".2", ".3"]

/-- The template literal of `buildFiles`:
`` `${sexTag}.${face}_${h}${a}${IMAGE_EXT}` ``. -/
def fileName (sexTag : String) (face : Nat) (h a : String) : String :=
  sexTag ++ "." ++ toString face ++ "_" ++ h ++ a ++ IMAGE_EXT

/-- `function buildFiles(sexTag)`: nested loops, `face` outer (1..6), height
middle, attractiveness inner. -/
def buildFiles (sexTag : String) : List String :=
  (List.range NUM_FACES_PER_SEX).flatMap (fun i =>
    HEIGHT_CODES.flatMap (fun h =>
      ATTR_CODES.map (fun a => fileName sexTag (i + 1) h a)))

/-- `const maleFiles = buildFiles('M.F')` -/
def maleFiles : List String := buildFiles "M.F"

/-- `const femaleFiles = buildFiles('F.F')` -/
def femaleFiles : List String := buildFiles "F.F"

/-- `` const malePaths = maleFiles.map(f => `all_images/${f}`) `` -/
def malePaths : List String := maleFiles.map (fun f => "all_images/" ++ f)

/-- `` const femalePaths = femaleFiles.map(f => `all_images/${f}`) `` -/
def femalePaths : List String := femaleFiles.map (fun f => "all_images/" ++ f)

/- ========= FILENAME PARSING (`parseMeta`, lines 70-86) ========= -/

/-- The metadata record built by `parseMeta` ("clean columns"); every field
starts out `null`. -/
structure Meta where
  sex : Option String
  face_id : Option Nat
  height_code : Option String
  height_label : Option String
  attract_code : Option String
  attract_label : Option String
deriving DecidableEq, Repr

/-- The initial all-null record `{ sex:null, face_id:null, ... }`. -/
def nullMeta : Meta := ⟨none, none, none, none, none, none⟩

/-- Case-insensitive comparison of one character against a lowercase target
(the regex `/i` flag; like the platform, only ASCII letters fold). -/
def ciIs (c target : Char) : Bool := c.toLower == target

/-- Whether `cs` matches the regex tail `\.(png|jpg|jpeg)$` under `/i`. -/
def isExtTail (cs : List Char) : Bool :=
  let ls := cs.map Char.toLower
  ls == ['.', 'p', 'n', 'g'] || ls == ['.', 'j', 'p', 'g'] ||
    ls == ['.', 'j', 'p', 'e', 'g']

/-- The captures of a successful match of
`/^([FM]\.F)\.(\d+)_([123])(?:\.([23]))?\.(png|jpg|jpeg)$/i`
(the extension capture is unused by `parseMeta` and not kept). -/
structure MatchResult where
  tag : String
  faceDigits : String
  heightChar : Char
  attractChar : Option Char
deriving DecidableEq, Repr

/-- `name.match(/^([FM]\.F)\.(\d+)_([123])(?:\.([23]))?\.(png|jpg|jpeg)$/i)`.
`\d+` is greedy and `_` is not a digit, so maximal munch is exact; the one
backtracking point of the regex is the optional `(?:\.([23]))?` group, handled
by trying the group first and falling back to the groupless alternative. -/
def matchName (name : String) : Option MatchResult :=
  match name.toList with
  | c0 :: c1 :: c2 :: c3 :: rest =>
    if (ciIs c0 'f' || ciIs c0 'm') && c1 == '.' && ciIs c2 'f' && c3 == '.' then
      match rest.takeWhile Char.isDigit, rest.dropWhile Char.isDigit with
      | [], _ => none
      | d0 :: ds, '_' :: h :: rest3 =>
        if h == '1' || h == '2' || h == '3' then
          let res := fun a =>
            some (MatchResult.mk (String.mk [c0, c1, c2]) (String.mk (d0 :: ds)) h a)
          match rest3 with
          | '.' :: a :: rest4 =>
            if (a == '2' || a == '3') && isExtTail rest4 then res (some a)
            else if isExtTail rest3 then res none
            else none
          | _ => if isExtTail rest3 then res none else none
        else none
      | _ :: _, _ => none
    else none
  | _ => none

/-- `p.split('/')`: splits at every `'/'`, keeping empty segments (so the
result is never the empty list). -/
def splitSlash : List Char → List (List Char)
  | [] => [[]]
  | c :: rest =>
    let r := splitSlash rest
    if c = '/' then [] :: r
    else
      match r with
      | s :: ss => (c :: s) :: ss
      | [] => [[c]]

/-- `imgPath.split('/').pop()` -/
def basename (p : String) : String := String.mk ((splitSlash p.toList).getLastD [])

/-- `parseInt(m[2], 10)` on an all-digits capture. -/
def parseIntDigits (s : String) : Nat :=
  s.toList.foldl (fun n c => n * 10 + (c.toNat - 48)) 0

/-- `function parseMeta(imgPath)`: strict pattern match against the fixed
grammar; all-null record on failure. `tag === 'F.F'` is a case-sensitive
comparison even though the match itself is case-insensitive. -/
def parseMeta (imgPath : String) : Meta :=
  let name := basename imgPath
  match matchName name with
  | none => nullMeta
  | some m =>
    let tag := m.tag
    let face := parseIntDigits m.faceDigits
    let h := String.mk [m.heightChar]
    let a : String :=
      match m.attractChar with
      | some c => String.mk [c]
      | none => ""
    { sex := some (if tag == "F.F" then "Female" else "Male")
      face_id := some face
      height_code := some h
      height_label :=
        some (if h == "1" then "Tall" else if h == "2" then "Average" else "Short")
      attract_code := if a == "" then none else some a
      attract_label :=
        some (if a == "" then "Attractive"
              else if a == "2" then "LessAttractive" else "VeryUnattractive") }

/- ========= TIMELINE ITEMS (`src/experiment.js` lines 189-365) ========= -/

/-- One entry of the jsPsych timeline. Instruction-plugin screens (welcome,
instructions, block intros, thank-you) and the fullscreen/preload steps are
distinguished from the rating trials (`jsPsychSurveyHtmlForm`), which carry
their `data: { block, image, ...parseMeta(imgPath) }` through `block` and
`image` (the spread metadata is recomputed by `parseMeta image` where
needed, which is exactly what `makeImageTrial` attaches). -/
inductive TimelineItem where
  | fullscreen
  | preload (images : List String)
  | welcome
  | instructions
  | blockIntro (label : String)
  | imageTrial (block : String) (image : String)
  | thankYou
deriving DecidableEq, Repr

/-- `makeImageTrial(blockLabel, imgPath)` reduced to its timeline-relevant
content: a survey-html-form trial whose data carries the block label and the
image path. -/
def makeImageTrial (blockLabel : String) (imgPath : String) : TimelineItem :=
  TimelineItem.imageTrial blockLabel imgPath

/-- `it.image` when `it` is a rating trial. -/
def imageOfItem : TimelineItem → Option String
  | TimelineItem.imageTrial _ img => some img
  | _ => none

/-- Whether a timeline item is a rating trial. -/
def isImageTrial : TimelineItem → Bool
  | TimelineItem.imageTrial _ _ => true
  | _ => false

/- ========= RANDOMIZATION (`jsPsych.randomization.shuffle`) ========= -/

/-- Remove the element at index `n`, returning it with the remainder. -/
def pickOut {α : Type} : List α → Nat → Option (α × List α)
  | [], _ => none
  | x :: xs, 0 => some (x, xs)
  | x :: xs, n + 1 =>
    match pickOut xs n with
    | some (y, ys) => some (y, x :: ys)
    | none => none

/-- Modelled from the spec: `jsPsych.randomization.shuffle` is not part of
this repository; the spec describes it as the runner's "uniform-random
permutation utility". It is modelled as a Fisher-Yates draw-without-
replacement parameterised by the stream `seeds` of random draws, so theorems
quantifying over `seeds` cover every order the shuffle can produce. -/
def shuffleAux {α : Type} : Nat → List Nat → List α → List α
  | 0, _, l => l
  | _ + 1, _, [] => []
  | _ + 1, [], l => l
  | fuel + 1, s :: ss, l =>
    match pickOut l (s % l.length) with
    | some (y, ys) => y :: shuffleAux fuel ss ys
    | none => l

/-- Modelled from the spec: see `shuffleAux`. -/
def shuffle {α : Type} (seeds : List Nat) (l : List α) : List α :=
  shuffleAux l.length seeds l

/-- `makeBlockTrials(label, paths)`: one rating trial per path, then
randomized within the block. -/
def makeBlockTrials (label : String) (paths : List String)
    (seeds : List Nat) : List TimelineItem :=
  shuffle seeds (paths.map (makeImageTrial label))

/- ========= BLOCKS & TIMELINE (lines 330-365) ========= -/

/-- One element of the `blocks` array: `{ intro: ..., trials: ... }` with the
intro screen represented by its label. -/
structure BlockDef where
  introLabel : String
  trials : List TimelineItem
deriving DecidableEq, Repr

/-- `{ intro: maleIntro, trials: maleTrials }` with
`maleTrials = makeBlockTrials('Male', malePaths)`. -/
def maleBlock (ms : List Nat) : BlockDef :=
  BlockDef.mk "Male" (makeBlockTrials "Male" malePaths ms)

/-- `{ intro: femaleIntro, trials: femaleTrials }` with
`femaleTrials = makeBlockTrials('Female', femalePaths)`. -/
def femaleBlock (fs : List Nat) : BlockDef :=
  BlockDef.mk "Female" (makeBlockTrials "Female" femalePaths fs)

/-- `const blocks = jsPsych.randomization.shuffle([male, female])`. -/
def blocks (bs ms fs : List Nat) : List BlockDef :=
  shuffle bs [maleBlock ms, femaleBlock fs]

/-- The fixed head of the timeline:
`timeline.push(fullscreen); timeline.push(preload, welcome, instructions)`
with `preload.images = [...malePaths, ...femalePaths]`. -/
def timelineHead : List TimelineItem :=
  [TimelineItem.fullscreen, TimelineItem.preload (malePaths ++ femalePaths),
   TimelineItem.welcome, TimelineItem.instructions]

/-- `timeline.push(b.intro, ...b.trials)` for the two blocks in order,
then `timeline.push(thankYou)`. -/
def timelineOfBlocks (b0 b1 : BlockDef) : List TimelineItem :=
  timelineHead ++
    (TimelineItem.blockIntro b0.introLabel :: b0.trials) ++
    (TimelineItem.blockIntro b1.introLabel :: b1.trials) ++
    [TimelineItem.thankYou]

/-- The full `timeline` array, indexing `blocks[0]` and `blocks[1]` (the
shuffle of a two-element array always has two elements, so the default branch
is unreachable). -/
def timeline (bs ms fs : List Nat) : List TimelineItem :=
  match blocks bs ms fs with
  | [b0, b1] => timelineOfBlocks b0 b1
  | _ => []

/- ========= TRIAL DATA & PERSISTENCE (lines 106-180) ========= -/

/-- The participant's input on one rating screen: the reaction time recorded
by the runner and the four 1-7 slider values (range-input values, read as
numbers by `Number(...)`). -/
structure TrialResponse where
  rt : Int
  Q1 : Int
  Q2 : Int
  Q3 : Int
  Q4 : Int
deriving DecidableEq, Repr

/-- One jsPsych data record as seen by `on_trial_finish` / `jsPsych.data`:
`trial_type` plus the `data: {...}` bag attached at definition time, the
`participant_id` added by `jsPsych.data.addProperties`, the reaction time and
(for survey-html-form trials) the response object. -/
structure TrialData where
  trial_type : String
  participant_id : String
  block : Option String
  image : Option String
  sex : Option String
  face_id : Option Nat
  height_code : Option String
  height_label : Option String
  attract_code : Option String
  attract_label : Option String
  rt : Int
  response : Option TrialResponse
deriving DecidableEq, Repr

/-- The data record a non-rating timeline step leaves behind (its plugin's
trial type; no block/image/metadata, no form response). -/
def plainRecord (tt pid : String) (rt : Int) : TrialData :=
  { trial_type := tt, participant_id := pid, block := none, image := none,
    sex := none, face_id := none, height_code := none, height_label := none,
    attract_code := none, attract_label := none, rt := rt, response := none }

/-- The data record a timeline item produces on completion. A rating trial
records `trial_type: 'survey-html-form'` and spreads
`data: { block, image, ...parseMeta(imgPath) }`. -/
def recordOf (pid : String) (item : TimelineItem) (r : TrialResponse) : TrialData :=
  match item with
  | TimelineItem.imageTrial block img =>
    let meta := parseMeta img
    { trial_type := "survey-html-form", participant_id := pid,
      block := some block, image := some img, sex := meta.sex,
      face_id := meta.face_id, height_code := meta.height_code,
      height_label := meta.height_label, attract_code := meta.attract_code,
      attract_label := meta.attract_label, rt := r.rt, response := some r }
  | TimelineItem.fullscreen => plainRecord "fullscreen" pid r.rt
  | TimelineItem.preload _ => plainRecord "preload" pid r.rt
  | TimelineItem.welcome => plainRecord "instructions" pid r.rt
  | TimelineItem.instructions => plainRecord "instructions" pid r.rt
  | TimelineItem.blockIntro _ => plainRecord "instructions" pid r.rt
  | TimelineItem.thankYou => plainRecord "instructions" pid r.rt

/-- `firebase.database.ServerValue.TIMESTAMP`: the server-assigned write-time
placeholder. -/
inductive ServerValue where
  | timestamp
deriving DecidableEq, Repr

/-- `Number(data.response?.Q1)` and friends: project one slider value out of
the optional response object. Rating-trial records always carry a response,
so the none branch (NaN in the platform) is never reached by the pipeline. -/
def numberOfQ (resp : Option TrialResponse) (f : TrialResponse → Int) : Int :=
  match resp with
  | some r => f r
  | none => 0

/-- One element of `payload.trials` built in `on_finish`: block, image, sex,
face_id, height_label, attract_label, rt, Q1..Q4 — and deliberately neither a
participant id nor a timestamp field. -/
structure TrialRow where
  block : Option String
  image : Option String
  sex : Option String
  face_id : Option Nat
  height_label : Option String
  attract_label : Option String
  rt : Int
  Q1 : Int
  Q2 : Int
  Q3 : Int
  Q4 : Int
deriving DecidableEq, Repr

/-- The row mapping of `on_finish` (lines 147-159). -/
def rowOfData (d : TrialData) : TrialRow :=
  { block := d.block, image := d.image, sex := d.sex, face_id := d.face_id,
    height_label := d.height_label, attract_label := d.attract_label,
    rt := d.rt,
    Q1 := numberOfQ d.response (fun r => r.Q1),
    Q2 := numberOfQ d.response (fun r => r.Q2),
    Q3 := numberOfQ d.response (fun r => r.Q3),
    Q4 := numberOfQ d.response (fun r => r.Q4) }

/-- The row streamed to `responses_stream` by `on_trial_finish`
(lines 124-138): the same fields plus the participant id and the
server-assigned `createdAt`. -/
structure StreamRow where
  participant_id : String
  createdAt : ServerValue
  block : Option String
  image : Option String
  sex : Option String
  face_id : Option Nat
  height_label : Option String
  attract_label : Option String
  rt : Int
  Q1 : Int
  Q2 : Int
  Q3 : Int
  Q4 : Int
deriving DecidableEq, Repr

/-- The object literal passed to `saveTrialRow` in `on_trial_finish`. -/
def streamRowOf (d : TrialData) : StreamRow :=
  { participant_id := d.participant_id, createdAt := ServerValue.timestamp,
    block := d.block, image := d.image, sex := d.sex, face_id := d.face_id,
    height_label := d.height_label, attract_label := d.attract_label,
    rt := d.rt,
    Q1 := numberOfQ d.response (fun r => r.Q1),
    Q2 := numberOfQ d.response (fun r => r.Q2),
    Q3 := numberOfQ d.response (fun r => r.Q3),
    Q4 := numberOfQ d.response (fun r => r.Q4) }

/-- `on_trial_finish` combined with `saveTrialRow`: for a survey-html-form
record, exactly one push to `responses_stream` is attempted (`ok` = whether
the backend accepted it; on failure the exception is caught and logged, never
retried); nothing is pushed for other trial types. The result is the list of
attempts, each tagged with its outcome. -/
def on_trial_finish (ok : Bool) (d : TrialData) : List (StreamRow × Bool) :=
  if d.trial_type == "survey-html-form" then [(streamRowOf d, ok)] else []

/-- The runner driving the timeline from trial index `i`: every item runs
unconditionally in order (a failed streaming save is caught inside
`saveTrialRow` and never aborts or blocks the session), producing the jsPsych
data list and the stream of per-trial push attempts. `resp` gives each
trial's participant input; `fail` says which push attempts the backend
rejects. -/
def runTimelineFrom (pid : String) (resp : Nat → TrialResponse)
    (fail : Nat → Bool) : Nat → List TimelineItem → List TrialData × List (StreamRow × Bool)
  | _, [] => ([], [])
  | i, item :: rest =>
    let d := recordOf pid item (resp i)
    let out := runTimelineFrom pid resp fail (i + 1) rest
    (d :: out.1, on_trial_finish (!fail i) d ++ out.2)

/-- The aggregate record pushed once to `responses` at session end. -/
structure Payload where
  participant_id : String
  trials : List TrialRow
  client_version : String
  createdAt : ServerValue
deriving DecidableEq, Repr

/-- The `payload` assembled by `on_finish` (lines 143-166): the full data
history filtered to survey-html-form records, mapped through the row
projection, with the participant id and server timestamp once at payload
level and `client_version: 'v1'`. -/
def on_finish_payload (pid : String) (data : List TrialData) : Payload :=
  { participant_id := pid,
    trials := (data.filter (fun d => d.trial_type == "survey-html-form")).map rowOfData,
    client_version := "v1",
    createdAt := ServerValue.timestamp }

/-- The observable steps of `on_finish` (lines 143-179), in program order. -/
inductive FinishEvent where
  | pushPayload (p : Payload)
  | logSaveOk
  | logSaveError
  | navigate (url : String) (delayMs : Nat)
deriving DecidableEq, Repr

/-- Whether a finish event is the aggregate push to `responses`. -/
def isPushPayload : FinishEvent → Bool
  | FinishEvent.pushPayload _ => true
  | _ => false

/-- `on_finish`: one awaited push of the aggregate payload (logging success
or the caught error), then — only if a redirect URL is configured (the empty
string is falsy) — `setTimeout(() => location.href = url, 1200)`. `ok` is the
outcome of the awaited push. -/
def on_finish (redirectUrl : String) (ok : Bool) (pid : String)
    (data : List TrialData) : List FinishEvent :=
  [FinishEvent.pushPayload (on_finish_payload pid data)]
  ++ (if ok then [FinishEvent.logSaveOk] else [FinishEvent.logSaveError])
  ++ (if redirectUrl = "" then [] else [FinishEvent.navigate redirectUrl 1200])

/- ========= IDENTITY RESOLUTION (lines 34-45, 182-185) ========= -/

/-- A hexadecimal digit's value, if any (for percent escapes). -/
def hexDigit (c : Char) : Option Nat :=
  if c.isDigit then some (c.toNat - 48)
  else if 'a' ≤ c.toLower ∧ c.toLower ≤ 'f' then some (c.toLower.toNat - 87)
  else none

/-- Byte-wise percent decoding (the platform `decodeURIComponent` restricted
to single-byte escapes; a malformed escape, which raises URIError in the
platform, is kept literally — no theorem below depends on that case, and
every branch produces a nonempty result from a nonempty input). -/
def percentDecode : List Char → List Char
  | [] => []
  | '%' :: h1 :: h2 :: rest2 =>
    match hexDigit h1, hexDigit h2 with
    | some a, some b => Char.ofNat (16 * a + b) :: percentDecode rest2
    | _, _ => '%' :: percentDecode (h1 :: h2 :: rest2)
  | c :: rest => c :: percentDecode rest

/-- `decodeURIComponent(m)` as used by `getParam`. -/
def decodeURIComponent (s : String) : String := String.mk (percentDecode s.toList)

/-- `function getParam(name)`: `search` models
`new URLSearchParams(location.search).get` (string or null); a null or empty
(falsy) value yields null, otherwise the decoded value. -/
def getParam (search : String → Option String) (name : String) : Option String :=
  match search name with
  | some m => if m = "" then none else some (decodeURIComponent m)
  | none => none

/-- JavaScript `x || y` for a string-or-null left operand (null and the empty
string are falsy). -/
def jsOrStr (a b : Option String) : Option String :=
  match a with
  | some s => if s = "" then b else some s
  | none => b

/-- `const participant_id = getParam('pid') || getParam('workerId') ||
getParam('PROLIFIC_PID') || safeUUID()`; `uuid` stands for the freshly
generated `safeUUID()` fallback. -/
def participant_id (search : String → Option String) (uuid : String) : String :=
  match jsOrStr (jsOrStr (getParam search "pid") (getParam search "workerId"))
      (getParam search "PROLIFIC_PID") with
  | some s => if s = "" then uuid else s
  | none => uuid

/- ========= TRIAL GATE (`makeImageTrial.on_load`, lines 280-320) ======== -/

/-- The per-trial gate state: `dataset.touched` of each of the four sliders
(`'1'` = touched). Freshly initialised to all-untouched on every trial load;
discarded when the trial ends. -/
def GateState : Type := Fin 4 → Bool

/-- `sliders.forEach(s => s.dataset.touched = '0')`. -/
def initGate : GateState := fun _ => false

/-- The `mark` handler for slider `i`: set `dataset.touched = '1'`. Any
qualifying event (input, change, pointerdown, mousedown, touchstart, focus,
keydown) on slider `i` invokes it; marking is idempotent, so the `once:true`
listener bookkeeping does not affect the state. -/
def touch (s : GateState) (i : Fin 4) : GateState :=
  fun j => if j = i then true else s j

/-- The gate state after a sequence of qualifying events (each event is the
index of the slider it occurred on). -/
def runGate (es : List (Fin 4)) : GateState :=
  es.foldl touch initGate

/-- `sliders.every(s => s.dataset.touched === '1')` in `checkAllTouched`. -/
def allTouched (s : GateState) : Bool :=
  (List.finRange 4).all (fun i => s i)

/-- `btn.disabled = !ok` in `checkAllTouched` (the advance action is disabled
exactly while not all sliders are touched; the instruction message's
visibility follows the same flag). -/
def btnDisabled (s : GateState) : Bool := !allTouched s

/- ========= CODEC THEOREMS (claims C2, C3, C10) ========= -/

/-- C2: every path produced by `buildFiles` for either sex tag ("M.F" or
"F.F") parses back through `parseMeta` to non-null structured fields that
recover exactly the originating sex tag, face id, height code and
attractiveness code (the parser reports the attractiveness suffix without its
leading dot and as `null` for the empty suffix, an injective rendering that
the final conjunct inverts). -/
theorem generated_paths_round_trip :
    ∀ sexTag ∈ (["M.F", "F.F"] : List String),
    ∀ face ∈ (List.range NUM_FACES_PER_SEX).map (fun i => i + 1),
    ∀ h ∈ HEIGHT_CODES, ∀ a ∈ ATTR_CODES,
      fileName sexTag face h a ∈ buildFiles sexTag ∧
      (parseMeta (fileName sexTag face h a)).sex =
        some (if sexTag == "F.F" then "Female" else "Male") ∧
      (parseMeta (fileName sexTag face h a)).face_id = some face ∧
      (parseMeta (fileName sexTag face h a)).height_code = some h ∧
      (match (parseMeta (fileName sexTag face h a)).attract_code with
        | none => ""
        | some d => "." ++ d) = a := by
  decide

/-- Witness for C2 at the spec's own scenario `M.F.3_2.2.png`. -/
theorem generated_paths_round_trip_witness :
    fileName "M.F" 3 "2" ".2" ∈ buildFiles "M.F" ∧
    (parseMeta (fileName "M.F" 3 "2" ".2")).face_id = some 3 ∧
    (parseMeta (fileName "M.F" 3 "2" ".2")).height_code = some "2" :=
  ⟨(generated_paths_round_trip "M.F" (by decide) 3 (by decide) "2" (by decide)
      ".2" (by decide)).1,
   (generated_paths_round_trip "M.F" (by decide) 3 (by decide) "2" (by decide)
      ".2" (by decide)).2.2.1,
   (generated_paths_round_trip "M.F" (by decide) 3 (by decide) "2" (by decide)
      ".2" (by decide)).2.2.2.1⟩

/-- C3: on any input path whose base name fails the fixed filename grammar,
`parseMeta` returns the record with all six fields null (and, being a total
function, never raises). -/
theorem malformed_path_parses_all_null (p : String)
    (hfail : matchName (basename p) = none) : parseMeta p = nullMeta := by
  simp [parseMeta, hfail]

/-- Witness for C3 at a path with a missing extension. -/
theorem malformed_path_parses_all_null_witness :
    matchName (basename "M.F.1_1") = none ∧ parseMeta "M.F.1_1" = nullMeta :=
  ⟨by decide, malformed_path_parses_all_null "M.F.1_1" (by decide)⟩

/-- C10: `parseMeta` matches case-insensitively but compares the sex tag
case-sensitively against "F.F", so the lowercase-tagged `f.f.1_1.png` parses
successfully and reports sex "Male", not "Female" and not a failure. -/
theorem lowercase_sex_tag_parses_as_male :
    parseMeta "f.f.1_1.png" =
      { sex := some "Male", face_id := some 1, height_code := some "1",
        height_label := some "Tall", attract_code := none,
        attract_label := some "Attractive" } ∧
    parseMeta "f.f.1_1.png" ≠ nullMeta := by
  decide

/- ========= SHUFFLE LEMMAS & RANDOMIZATION THEOREMS (claims C6, C7) ==== -/

theorem pickOut_perm {α : Type} :
    ∀ (l : List α) (n : Nat) (y : α) (ys : List α),
      pickOut l n = some (y, ys) → (y :: ys).Perm l := by
  intro l
  induction l with
  | nil => intro n y ys h; simp [pickOut] at h
  | cons x xs ih =>
    intro n y ys h
    cases n with
    | zero =>
      simp [pickOut] at h
      obtain ⟨rfl, rfl⟩ := h
      exact List.Perm.refl _
    | succ m =>
      simp only [pickOut] at h
      cases hp : pickOut xs m with
      | none => rw [hp] at h; simp at h
      | some p =>
        obtain ⟨y2, ys2⟩ := p
        rw [hp] at h
        simp at h
        obtain ⟨rfl, rfl⟩ := h
        exact (List.Perm.swap x y2 ys2).trans ((ih m y2 ys2 hp).cons x)

theorem shuffleAux_perm {α : Type} :
    ∀ (fuel : Nat) (ss : List Nat) (l : List α), (shuffleAux fuel ss l).Perm l := by
  intro fuel
  induction fuel with
  | zero => intro ss l; exact List.Perm.refl _
  | succ n ih =>
    intro ss l
    cases l with
    | nil => simp [shuffleAux]
    | cons x xs =>
      cases ss with
      | nil => exact List.Perm.refl _
      | cons s ss2 =>
        simp only [shuffleAux]
        cases hp : pickOut (x :: xs) (s % (x :: xs).length) with
        | none => exact List.Perm.refl _
        | some p =>
          obtain ⟨y, ys⟩ := p
          exact ((ih ss2 ys).cons y).trans (pickOut_perm _ _ _ _ hp)

theorem shuffle_perm {α : Type} (seeds : List Nat) (l : List α) :
    (shuffle seeds l).Perm l :=
  shuffleAux_perm l.length seeds l

/-- C6: for any block label, any list of stimulus paths and any order the
shuffle produces (any random draw stream `seeds`), `makeBlockTrials` is a
permutation of the block's full trial set: same length, and every trial
occurs exactly as often in the output as in the input (so no duplicates and
no omissions). -/
theorem shuffled_block_is_permutation
    (label : String) (paths : List String) (seeds : List Nat) :
    (makeBlockTrials label paths seeds).Perm (paths.map (makeImageTrial label)) ∧
    (makeBlockTrials label paths seeds).length = paths.length ∧
    ∀ t : TimelineItem,
      (makeBlockTrials label paths seeds).count t =
        (paths.map (makeImageTrial label)).count t := by
  refine ⟨shuffle_perm seeds _, ?_, ?_⟩
  · exact ((shuffle_perm seeds _).length_eq).trans (List.length_map _ _)
  · intro t
    exact (shuffle_perm seeds _).count_eq t

/-- A two-element array is shuffled into one of exactly its two orders. -/
theorem shuffle_pair {α : Type} (seeds : List Nat) (a b : α) :
    shuffle seeds [a, b] = [a, b] ∨ shuffle seeds [a, b] = [b, a] := by
  cases seeds with
  | nil => left; rfl
  | cons s ss =>
    rcases Nat.mod_two_eq_zero_or_one s with h | h
    · left
      cases ss with
      | nil => simp [shuffle, shuffleAux, pickOut, h]
      | cons s2 ss2 => simp [shuffle, shuffleAux, pickOut, h, Nat.mod_one]
    · right
      cases ss with
      | nil => simp [shuffle, shuffleAux, pickOut, h]
      | cons s2 ss2 => simp [shuffle, shuffleAux, pickOut, h, Nat.mod_one]

theorem timeline_two_orders (bs ms fs : List Nat) :
    timeline bs ms fs = timelineOfBlocks (maleBlock ms) (femaleBlock fs) ∨
    timeline bs ms fs = timelineOfBlocks (femaleBlock fs) (maleBlock ms) := by
  rcases shuffle_pair bs (maleBlock ms) (femaleBlock fs) with h | h
  · left; simp [timeline, blocks, h]
  · right; simp [timeline, blocks, h]

theorem mem_makeBlockTrials {t : TimelineItem} {label : String}
    {paths : List String} {seeds : List Nat}
    (h : t ∈ makeBlockTrials label paths seeds) :
    ∃ p ∈ paths, t = makeImageTrial label p := by
  have h2 := (shuffle_perm seeds (paths.map (makeImageTrial label))).mem_iff.mp h
  obtain ⟨p, hp, hEq⟩ := List.mem_map.mp h2
  exact ⟨p, hp, hEq.symm⟩

theorem image_of_mem_block_trials {label img label2 : String}
    {paths : List String} {seeds : List Nat}
    (h : TimelineItem.imageTrial label img ∈ makeBlockTrials label2 paths seeds) :
    img ∈ paths := by
  obtain ⟨p, hp, hEq⟩ := mem_makeBlockTrials h
  simp only [makeImageTrial, TimelineItem.imageTrial.injEq] at hEq
  exact hEq.2 ▸ hp

theorem imageTrial_mem_timelineOfBlocks {label img : String} {b0 b1 : BlockDef}
    (h : TimelineItem.imageTrial label img ∈ timelineOfBlocks b0 b1) :
    TimelineItem.imageTrial label img ∈ b0.trials ∨
    TimelineItem.imageTrial label img ∈ b1.trials := by
  simp [timelineOfBlocks, timelineHead] at h
  exact h

/-- C7: the linearized timeline is exactly
[fullscreen, preload, welcome, instructions,
 first intro, first block trials, second intro, second block trials,
 thank-you], with the block order one of exactly the two orders of
{Male, Female}; the preload manifest is duplicate-free and counts every
stimulus path of every rating trial exactly once. -/
theorem timeline_structure (bs ms fs : List Nat) :
    (timeline bs ms fs =
        [TimelineItem.fullscreen,
         TimelineItem.preload (malePaths ++ femalePaths),
         TimelineItem.welcome, TimelineItem.instructions,
         TimelineItem.blockIntro "Male"]
        ++ makeBlockTrials "Male" malePaths ms
        ++ (TimelineItem.blockIntro "Female"
             :: makeBlockTrials "Female" femalePaths fs)
        ++ [TimelineItem.thankYou] ∨
     timeline bs ms fs =
        [TimelineItem.fullscreen,
         TimelineItem.preload (malePaths ++ femalePaths),
         TimelineItem.welcome, TimelineItem.instructions,
         TimelineItem.blockIntro "Female"]
        ++ makeBlockTrials "Female" femalePaths fs
        ++ (TimelineItem.blockIntro "Male"
             :: makeBlockTrials "Male" malePaths ms)
        ++ [TimelineItem.thankYou]) ∧
    (malePaths ++ femalePaths).Nodup ∧
    (∀ label img : String,
      TimelineItem.imageTrial label img ∈ timeline bs ms fs →
        (malePaths ++ femalePaths).count img = 1) := by
  have hnd : (malePaths ++ femalePaths).Nodup := by decide
  have hcount : ∀ label img : String,
      TimelineItem.imageTrial label img ∈ timeline bs ms fs →
        (malePaths ++ femalePaths).count img = 1 := by
    intro label img hmem
    have himg : img ∈ malePaths ++ femalePaths := by
      rw [List.mem_append]
      rcases timeline_two_orders bs ms fs with h | h
      · rw [h] at hmem
        rcases imageTrial_mem_timelineOfBlocks hmem with h1 | h1
        · exact Or.inl (image_of_mem_block_trials h1)
        · exact Or.inr (image_of_mem_block_trials h1)
      · rw [h] at hmem
        rcases imageTrial_mem_timelineOfBlocks hmem with h1 | h1
        · exact Or.inr (image_of_mem_block_trials h1)
        · exact Or.inl (image_of_mem_block_trials h1)
    exact List.count_eq_one_of_mem hnd himg
  refine ⟨?_, hnd, hcount⟩
  rcases timeline_two_orders bs ms fs with h | h
  · left
    rw [h]
    simp only [timelineOfBlocks, timelineHead, maleBlock, femaleBlock,
      List.cons_append, List.nil_append, List.append_assoc]
  · right
    rw [h]
    simp only [timelineOfBlocks, timelineHead, maleBlock, femaleBlock,
      List.cons_append, List.nil_append, List.append_assoc]

/-- Witness for C7 with empty draw streams (identity shuffles), checking the
manifest count at a concrete rating trial of the resulting timeline. -/
theorem timeline_structure_witness :
    (malePaths ++ femalePaths).count "all_images/M.F.1_1.png" = 1 :=
  (timeline_structure [] [] []).2.2 "Male" "all_images/M.F.1_1.png" (by decide)


/- ========= RUN / PERSISTENCE LEMMAS & THEOREMS (claims C4, C5, C1) ===== -/

theorem recordOf_trial_type (pid : String) (item : TimelineItem) (r : TrialResponse) :
    ((recordOf pid item r).trial_type == "survey-html-form") = isImageTrial item := by
  cases item <;> rfl

theorem runTimelineFrom_fst_indep (pid : String) (resp : Nat → TrialResponse)
    (fail fail2 : Nat → Bool) (i : Nat) (tl : List TimelineItem) :
    (runTimelineFrom pid resp fail i tl).1 = (runTimelineFrom pid resp fail2 i tl).1 := by
  induction tl generalizing i with
  | nil => rfl
  | cons item rest ih => simp [runTimelineFrom, ih]

theorem map_fst_on_trial_finish (b : Bool) (d : TrialData) :
    (on_trial_finish b d).map Prod.fst =
      if d.trial_type == "survey-html-form" then [streamRowOf d] else [] := by
  by_cases h : (d.trial_type == "survey-html-form") = true <;> simp [on_trial_finish, h]

theorem runTimelineFrom_attempt_rows (pid : String) (resp : Nat → TrialResponse)
    (fail fail2 : Nat → Bool) (i : Nat) (tl : List TimelineItem) :
    ((runTimelineFrom pid resp fail i tl).2).map Prod.fst =
      ((runTimelineFrom pid resp fail2 i tl).2).map Prod.fst := by
  induction tl generalizing i with
  | nil => rfl
  | cons item rest ih =>
    simp [runTimelineFrom, map_fst_on_trial_finish, ih]

theorem runTimelineFrom_attempt_count (pid : String) (resp : Nat → TrialResponse)
    (fail : Nat → Bool) (i : Nat) (tl : List TimelineItem) :
    ((runTimelineFrom pid resp fail i tl).2).length = (tl.filter isImageTrial).length := by
  induction tl generalizing i with
  | nil => rfl
  | cons item rest ih =>
    have ht := recordOf_trial_type pid item (resp i)
    simp only [runTimelineFrom, List.length_append, on_trial_finish, ht, List.filter_cons]
    cases hit : isImageTrial item
    · simp [hit, ih]
    · simp [hit, ih]
      omega

theorem runTimelineFrom_surveys_images (pid : String) (resp : Nat → TrialResponse)
    (fail : Nat → Bool) (i : Nat) (tl : List TimelineItem) :
    (((runTimelineFrom pid resp fail i tl).1).filter
        (fun d => d.trial_type == "survey-html-form")).map (fun d => d.image) =
      (tl.filter isImageTrial).map imageOfItem := by
  induction tl generalizing i with
  | nil => rfl
  | cons item rest ih =>
    cases item <;>
      simp [runTimelineFrom, recordOf, plainRecord, isImageTrial, imageOfItem,
        List.filter_cons, ih]

theorem filter_makeBlockTrials (label : String) (paths : List String)
    (seeds : List Nat) :
    (makeBlockTrials label paths seeds).filter isImageTrial =
      makeBlockTrials label paths seeds :=
  List.filter_eq_self.mpr (fun t ht => by
    obtain ⟨p, hp, rfl⟩ := mem_makeBlockTrials ht
    rfl)

theorem makeBlockTrials_length (label : String) (paths : List String)
    (seeds : List Nat) :
    (makeBlockTrials label paths seeds).length = paths.length :=
  (shuffle_perm seeds _).length_eq.trans (List.length_map _ _)

theorem timeline_rating_trial_count (bs ms fs : List Nat) :
    ((timeline bs ms fs).filter isImageTrial).length = 108 := by
  have hm : malePaths.length = 54 := by rfl
  have hf : femalePaths.length = 54 := by rfl
  rcases timeline_two_orders bs ms fs with h | h <;> rw [h] <;>
    simp [timelineOfBlocks, timelineHead, List.filter_append, isImageTrial,
      filter_makeBlockTrials, makeBlockTrials_length, maleBlock, femaleBlock,
      hm, hf]

/-- C4: in a session completing every trial of both blocks (for any shuffle
draws, participant inputs and streaming-save outcomes), `on_finish` performs
exactly one aggregate push to `responses`, whose payload holds one row per
rating trial in completion order — 108 = 2 x (6 x 3 x 3) rows, matching the
timeline's rating trials one for one — and the per-trial row shape carries no
participant id and no timestamp (the row projection is invariant under the
record's participant id; `TrialRow` has no timestamp field, which sits once
at payload level as `createdAt`). -/
theorem session_single_aggregate_108_rows (bs ms fs : List Nat) (pid : String)
    (resp : Nat → TrialResponse) (fail : Nat → Bool) (url : String) (ok : Bool) :
    ((on_finish url ok pid
        ((runTimelineFrom pid resp fail 0 (timeline bs ms fs)).1)).filter
          isPushPayload).length = 1 ∧
    (on_finish_payload pid
        ((runTimelineFrom pid resp fail 0 (timeline bs ms fs)).1)).trials.length = 108 ∧
    ((on_finish_payload pid
        ((runTimelineFrom pid resp fail 0 (timeline bs ms fs)).1)).trials.map
          (fun r => r.image)) =
      ((timeline bs ms fs).filter isImageTrial).map imageOfItem ∧
    (∀ (d : TrialData) (p : String),
      rowOfData { d with participant_id := p } = rowOfData d) := by
  refine ⟨?_, ?_, ?_, ?_⟩
  · by_cases hu : url = "" <;> cases ok <;> simp [on_finish, isPushPayload, hu]
  · have himg := runTimelineFrom_surveys_images pid resp fail 0 (timeline bs ms fs)
    have hlen := congrArg List.length himg
    simp only [List.length_map] at hlen
    simp [on_finish_payload, hlen, timeline_rating_trial_count]
  · have himg := runTimelineFrom_surveys_images pid resp fail 0 (timeline bs ms fs)
    simp only [on_finish_payload]
    rw [List.map_map]
    have hco : ((fun r : TrialRow => r.image) ∘ rowOfData) =
        fun d : TrialData => d.image := rfl
    rw [hco, himg]
  · intro d p
    rfl

/-- C5: streaming-save failures are isolated. For any two backend failure
patterns (e.g. "trial 5's partial save fails" versus "no failure"), the
executed trial-data history is identical — every subsequent trial still runs
— and the final aggregate payload is identical, so every trial is still
included; exactly one stream push is attempted per rating trial (108 in a
full session, never retried), and the attempted rows themselves do not
depend on the failure pattern (a failure is caught, logged and dropped). -/
theorem stream_save_failure_isolated (bs ms fs : List Nat) (pid : String)
    (resp : Nat → TrialResponse) (fail fail2 : Nat → Bool) :
    (runTimelineFrom pid resp fail 0 (timeline bs ms fs)).1 =
      (runTimelineFrom pid resp fail2 0 (timeline bs ms fs)).1 ∧
    on_finish_payload pid ((runTimelineFrom pid resp fail 0 (timeline bs ms fs)).1) =
      on_finish_payload pid ((runTimelineFrom pid resp fail2 0 (timeline bs ms fs)).1) ∧
    ((runTimelineFrom pid resp fail 0 (timeline bs ms fs)).2).map Prod.fst =
      ((runTimelineFrom pid resp fail2 0 (timeline bs ms fs)).2).map Prod.fst ∧
    ((runTimelineFrom pid resp fail 0 (timeline bs ms fs)).2).length = 108 :=
  ⟨runTimelineFrom_fst_indep pid resp fail fail2 0 (timeline bs ms fs),
   congrArg (on_finish_payload pid)
     (runTimelineFrom_fst_indep pid resp fail fail2 0 (timeline bs ms fs)),
   runTimelineFrom_attempt_rows pid resp fail fail2 0 (timeline bs ms fs),
   (runTimelineFrom_attempt_count pid resp fail 0 (timeline bs ms fs)).trans
     (timeline_rating_trial_count bs ms fs)⟩

/-- C1: with a redirect URL configured (non-empty), a successful awaited
final save is followed by exactly the events
[aggregate push, success log, navigate(url, 1200 ms)]; and whatever the save
outcome, the awaited push is the first event and the navigation the last, so
the redirect never precedes the final write attempt. -/
theorem redirect_follows_successful_final_save (url pid : String)
    (data : List TrialData) (hurl : url ≠ "") :
    on_finish url true pid data =
      [FinishEvent.pushPayload (on_finish_payload pid data),
       FinishEvent.logSaveOk,
       FinishEvent.navigate url 1200] ∧
    (∀ ok : Bool,
      (on_finish url ok pid data).head? =
        some (FinishEvent.pushPayload (on_finish_payload pid data)) ∧
      (on_finish url ok pid data).getLast? =
        some (FinishEvent.navigate url 1200)) := by
  constructor
  · simp [on_finish, hurl]
  · intro ok
    cases ok <;> simp [on_finish, hurl]

/-- Witness for C1 at a concrete configured URL and empty history. -/
theorem redirect_follows_successful_final_save_witness :
    on_finish "https://example.org/done" true "p1" [] =
      [FinishEvent.pushPayload (on_finish_payload "p1" []),
       FinishEvent.logSaveOk,
       FinishEvent.navigate "https://example.org/done" 1200] :=
  (redirect_follows_successful_final_save "https://example.org/done" "p1" []
    (by decide)).1



/- ========= IDENTITY THEOREMS (claim C8) ========= -/

theorem percentDecode_cons_ne_nil (c : Char) (cs : List Char) :
    percentDecode (c :: cs) ≠ [] := by
  rw [percentDecode.eq_def]
  split <;> simp_all
  split <;> simp

theorem percentDecode_no_percent :
    ∀ cs : List Char, (∀ c ∈ cs, c ≠ '%') → percentDecode cs = cs := by
  intro cs
  induction cs with
  | nil => intro _; rfl
  | cons c rest ih =>
    intro h
    have hc : c ≠ '%' := h c (List.mem_cons_self c rest)
    rw [percentDecode.eq_def]
    split
    · simp_all
    · rename_i heq
      injection heq with e1 e2
      exact absurd e1 hc
    · rename_i c2 rest3 heq
      injection heq with e1 e2
      subst e1
      subst e2
      rw [ih (fun x hx => h x (List.mem_cons_of_mem _ hx))]

theorem decodeURIComponent_ne_empty {v : String} (h : v ≠ "") :
    decodeURIComponent v ≠ "" := by
  obtain ⟨l⟩ := v
  cases l with
  | nil => exact absurd rfl h
  | cons c cs =>
    intro hEq
    have h2 : percentDecode (c :: cs) = [] := by
      have h3 := congrArg String.data hEq
      simpa [decodeURIComponent] using h3
    exact percentDecode_cons_ne_nil c cs h2

/-- C8: the participant id is the first non-empty entry-point parameter among
`pid`, `workerId`, `PROLIFIC_PID`, in that priority order (its value passed
through `decodeURIComponent`, which is the identity on escape-free values),
with the freshly generated identifier as fallback when all three are absent
or empty; in particular `?pid=ABC123` yields exactly "ABC123". -/
theorem participant_id_first_nonempty (search : String → Option String) (uuid : String) :
    (∀ v : String, search "pid" = some v → v ≠ "" →
        participant_id search uuid = decodeURIComponent v) ∧
    (∀ v : String, (search "pid" = none ∨ search "pid" = some "") →
        search "workerId" = some v → v ≠ "" →
        participant_id search uuid = decodeURIComponent v) ∧
    (∀ v : String, (search "pid" = none ∨ search "pid" = some "") →
        (search "workerId" = none ∨ search "workerId" = some "") →
        search "PROLIFIC_PID" = some v → v ≠ "" →
        participant_id search uuid = decodeURIComponent v) ∧
    ((search "pid" = none ∨ search "pid" = some "") →
        (search "workerId" = none ∨ search "workerId" = some "") →
        (search "PROLIFIC_PID" = none ∨ search "PROLIFIC_PID" = some "") →
        participant_id search uuid = uuid) ∧
    (∀ v : String, search "pid" = some v → v ≠ "" →
        (∀ c ∈ v.toList, c ≠ '%') → participant_id search uuid = v) := by
  refine ⟨?_, ?_, ?_, ?_, ?_⟩
  · intro v hv hne
    have hd := decodeURIComponent_ne_empty hne
    simp [participant_id, getParam, jsOrStr, hv, hne, hd]
  · intro v hp hv hne
    have hd := decodeURIComponent_ne_empty hne
    rcases hp with hp | hp <;>
      simp [participant_id, getParam, jsOrStr, hp, hv, hne, hd]
  · intro v hp hw hv hne
    have hd := decodeURIComponent_ne_empty hne
    rcases hp with hp | hp <;> rcases hw with hw | hw <;>
      simp [participant_id, getParam, jsOrStr, hp, hw, hv, hne, hd]
  · intro hp hw hq
    rcases hp with hp | hp <;> rcases hw with hw | hw <;> rcases hq with hq | hq <;>
      simp [participant_id, getParam, jsOrStr, hp, hw, hq]
  · intro v hv hne hnp
    have hd := decodeURIComponent_ne_empty hne
    have hdec : decodeURIComponent v = v := by
      unfold decodeURIComponent
      rw [percentDecode_no_percent v.toList hnp]
      rfl
    simp [participant_id, getParam, jsOrStr, hv, hne, hd, hdec]

/-- Witness for C8: `?pid=ABC123` resolves to exactly "ABC123"; with no
entry-point parameters the generated fallback is used. -/
theorem participant_id_first_nonempty_witness :
    participant_id (fun n => if n = "pid" then some "ABC123" else none) "pid_fb"
      = "ABC123" ∧
    participant_id (fun _ => none) "pid_fb" = "pid_fb" :=
  ⟨(participant_id_first_nonempty
      (fun n => if n = "pid" then some "ABC123" else none) "pid_fb").2.2.2.2
      "ABC123" (by decide) (by decide) (by decide),
   (participant_id_first_nonempty (fun _ => none) "pid_fb").2.2.2.1
      (Or.inl rfl) (Or.inl rfl) (Or.inl rfl)⟩

/- ========= GATE THEOREMS (claim C9) ========= -/

theorem foldl_touch_apply (es : List (Fin 4)) :
    ∀ (s : GateState) (i : Fin 4),
      (es.foldl touch s) i = (s i || decide (i ∈ es)) := by
  induction es with
  | nil => intro s i; simp
  | cons e rest ih =>
    intro s i
    by_cases hie : i = e
    · subst hie
      simp [List.foldl_cons, ih, touch]
    · simp [List.foldl_cons, ih, touch, hie]

theorem runGate_apply (es : List (Fin 4)) (i : Fin 4) :
    runGate es i = decide (i ∈ es) := by
  rw [runGate, foldl_touch_apply]
  simp [initGate]

theorem touch_touched {s : GateState} {i : Fin 4} (h : s i = true) :
    touch s i = s := by
  funext j
  by_cases hj : j = i
  · subst hj; simp [touch, h]
  · simp [touch, hj]

/-- C9: the per-trial gate. The advance action is enabled exactly when every
one of the four sliders has received at least one qualifying event (so it
stays disabled until then); the gate state after any event sequence is
invariant under reordering; re-touching an already-touched slider leaves the
state unchanged; and once all four are touched, the gate stays unlocked under
any further events of the trial. -/
theorem slider_gate :
    (∀ es : List (Fin 4), btnDisabled (runGate es) = false ↔ ∀ i : Fin 4, i ∈ es) ∧
    (∀ es es2 : List (Fin 4), es.Perm es2 → runGate es = runGate es2) ∧
    (∀ es : List (Fin 4), ∀ i : Fin 4, i ∈ es → runGate (es ++ [i]) = runGate es) ∧
    (∀ es es2 : List (Fin 4), (∀ i : Fin 4, i ∈ es) →
        btnDisabled (runGate (es ++ es2)) = false) := by
  have happ : ∀ (es : List (Fin 4)) (i : Fin 4), runGate es i = decide (i ∈ es) :=
    runGate_apply
  refine ⟨?_, ?_, ?_, ?_⟩
  · intro es
    simp [btnDisabled, allTouched, List.all_eq_true, happ, List.mem_finRange]
  · intro es es2 hp
    funext i
    rw [happ, happ]
    exact decide_eq_decide.mpr hp.mem_iff
  · intro es i hmem
    rw [runGate, List.foldl_append]
    simp only [List.foldl_cons, List.foldl_nil]
    exact touch_touched (by rw [← runGate, happ]; simpa using hmem)
  · intro es es2 h
    simp [btnDisabled, allTouched, List.all_eq_true, happ]
    intro i
    exact Or.inl (h i)

/-- Witness for C9: all four sliders touched unlocks; order reversal gives
the same state; re-touching slider 2 is a no-op; extra events keep the gate
unlocked. -/
theorem slider_gate_witness :
    btnDisabled (runGate [0, 1, 2, 3]) = false ∧
    runGate [0, 1, 2, 3] = runGate [3, 2, 1, 0] ∧
    runGate ([0, 1, 2, 3] ++ [2]) = runGate [0, 1, 2, 3] ∧
    btnDisabled (runGate ([0, 1, 2, 3] ++ [1, 1])) = false :=
  ⟨(slider_gate.1 [0, 1, 2, 3]).mpr (by decide),
   slider_gate.2.1 _ _ (by decide),
   slider_gate.2.2.1 [0, 1, 2, 3] 2 (by decide),
   slider_gate.2.2.2 [0, 1, 2, 3] [1, 1] (by decide)⟩


end HeightStudy
